import Mathlib

/-!
# UdpReceiver (src/core/positioning/udpreceiver.cpp)

A shallow embedding of the UDP positioning receiver: the receiver object is a
record of its member variables, every slot and lambda of the class is a pure
function on that record, and the Qt objects it owns (`QUdpSocket`, `QBuffer`,
`QTimer`) are small records holding the part of their state the receiver can
observe.  Signals emitted by the receiver and calls it issues on the socket are
appended to traces kept in the record, so "no notification" and "no bind" are
statements about those traces.

Qt delivers the reactions of the socket (`stateChanged`, `errorOccurred`,
`readyRead`) and of the timer (`timeout`) as events on the owning thread; they
are the constructors of `Event`, and `step` dispatches each to the slot the
constructor of the class wired it to.  Diagnostic output (`qInfo`), the platform
socket options set in the constructor and the hand-over of the buffer to the NMEA
parser are outside the record.
-/

namespace UdpReceiver

/-! ## Qt value types -/

/-- Bytes of a `QByteArray`. -/
abbrev QByteArray := List UInt8

/-- The enumeration `QAbstractSocket::SocketState`. -/
inductive SocketState where
  | UnconnectedState
  | HostLookupState
  | ConnectingState
  | ConnectedState
  | BoundState
  | ListeningState
  | ClosingState
  deriving DecidableEq

/-- Integer value of a `QAbstractSocket::SocketState`, as `static_cast<int>` gives it. -/
def SocketState.toInt : SocketState → Int
  | .UnconnectedState => 0
  | .HostLookupState => 1
  | .ConnectingState => 2
  | .ConnectedState => 3
  | .BoundState => 4
  | .ListeningState => 5
  | .ClosingState => 6

/-- The enumeration `QAbstractSocket::SocketError`. -/
inductive SocketError where
  | ConnectionRefusedError
  | RemoteHostClosedError
  | HostNotFoundError
  | SocketAccessError
  | SocketResourceError
  | SocketTimeoutError
  | DatagramTooLargeError
  | NetworkError
  | AddressInUseError
  | SocketAddressNotAvailableError
  | UnsupportedSocketOperationError
  | UnfinishedSocketOperationError
  | ProxyAuthenticationRequiredError
  | SslHandshakeFailedError
  | ProxyConnectionRefusedError
  | ProxyConnectionClosedError
  | ProxyConnectionTimeoutError
  | ProxyNotFoundError
  | ProxyProtocolError
  | OperationError
  | SslInternalError
  | SslInvalidUserDataError
  | TemporaryError
  | UnknownSocketError
  deriving DecidableEq

/-- The key `QMetaEnum::fromType<QAbstractSocket::SocketError>().valueToKey` returns:
the name of the enumerator. -/
def valueToKey : SocketError → String
  | .ConnectionRefusedError => "ConnectionRefusedError"
  | .RemoteHostClosedError => "RemoteHostClosedError"
  | .HostNotFoundError => "HostNotFoundError"
  | .SocketAccessError => "SocketAccessError"
  | .SocketResourceError => "SocketResourceError"
  | .SocketTimeoutError => "SocketTimeoutError"
  | .DatagramTooLargeError => "DatagramTooLargeError"
  | .NetworkError => "NetworkError"
  | .AddressInUseError => "AddressInUseError"
  | .SocketAddressNotAvailableError => "SocketAddressNotAvailableError"
  | .UnsupportedSocketOperationError => "UnsupportedSocketOperationError"
  | .UnfinishedSocketOperationError => "UnfinishedSocketOperationError"
  | .ProxyAuthenticationRequiredError => "ProxyAuthenticationRequiredError"
  | .SslHandshakeFailedError => "SslHandshakeFailedError"
  | .ProxyConnectionRefusedError => "ProxyConnectionRefusedError"
  | .ProxyConnectionClosedError => "ProxyConnectionClosedError"
  | .ProxyConnectionTimeoutError => "ProxyConnectionTimeoutError"
  | .ProxyNotFoundError => "ProxyNotFoundError"
  | .ProxyProtocolError => "ProxyProtocolError"
  | .OperationError => "OperationError"
  | .SslInternalError => "SslInternalError"
  | .SslInvalidUserDataError => "SslInvalidUserDataError"
  | .TemporaryError => "TemporaryError"
  | .UnknownSocketError => "UnknownSocketError"

/-- The call `tr( s )` in the source locale: the text unchanged. -/
def tr (s : String) : String := s

/-- The call `QString( pre "%1" post ).arg( a )` for a pattern with the single
place marker `%1`: the marker is replaced by `a`. -/
def arg1 (pre post a : String) : String := pre ++ a ++ post

/-! ## The Qt objects owned by the receiver -/

/-- A `QBuffer`: the underlying byte array `buffer()`, the device position `pos()`
and whether the device is open.  The receiver only ever opens it `ReadWrite`. -/
structure QBuffer where
  buf : QByteArray
  pos : Nat
  isOpen : Bool
  deriving DecidableEq

/-- The call `QBuffer::open( QIODevice::ReadWrite )`: the device is open at position 0. -/
def QBuffer.open (b : QBuffer) : QBuffer :=
  { b with isOpen := true, pos := 0 }

/-- The call `QBuffer::close()`: the device is closed and its position reset. -/
def QBuffer.close (b : QBuffer) : QBuffer :=
  { b with isOpen := false, pos := 0 }

/-- The call `buffer().clear()`: the byte array is emptied; the device position is
not touched. -/
def QBuffer.clear (b : QBuffer) : QBuffer :=
  { b with buf := [] }

/-- The call `QBuffer::seek( p )`: refused on a closed device; on the open
(writable) device the position becomes `p`, the data being padded with zero bytes
when `p` lies past its end. -/
def QBuffer.seek (b : QBuffer) (p : Nat) : QBuffer :=
  if b.isOpen then
    { b with buf := b.buf ++ List.replicate (p - b.buf.length) 0, pos := p }
  else b

/-- The call `QBuffer::write( data )`: refused on a closed device; otherwise the
bytes are stored from the current position on (replacing what was there, growing
the array when needed) and the position advances past them. -/
def QBuffer.write (b : QBuffer) (data : QByteArray) : QBuffer :=
  if b.isOpen then
    { b with
      buf := (b.buf ++ List.replicate (b.pos - b.buf.length) 0).take b.pos
               ++ data ++ b.buf.drop (b.pos + data.length)
      pos := b.pos + data.length }
  else b

/-- A `QTimer`: single-shot flag, whether it is running, and its interval in ms. -/
structure QTimer where
  singleShot : Bool
  active : Bool
  interval : Nat
  deriving DecidableEq

/-- The call `QTimer::start( msec )`: (re)starts the timer with that interval. -/
def QTimer.start (t : QTimer) (msec : Nat) : QTimer :=
  { t with active := true, interval := msec }

/-- What happens to the timer itself when it times out: a single-shot timer stops. -/
def QTimer.fired (t : QTimer) : QTimer :=
  if t.singleShot then { t with active := false } else t

/-- The conversion of an `int` argument to a `quint16` parameter: the value modulo
2^16. -/
def quint16 (v : Int) : Nat := (v % 65536).toNat

/-- A call issued on the `QUdpSocket`, with the address and the port the socket
receives.  The port parameters of `bind` and `connectToHost` are `quint16`; bind
flags and open mode are constants of the source and left out. -/
inductive SocketCall where
  | bind (address : String) (port : Nat)
  | joinMulticastGroup (address : String)
  | connectToHost (hostName : String) (port : Nat)
  | close
  deriving DecidableEq

/-- The `QUdpSocket` as seen by the receiver: the text `errorString()` currently
returns, the datagrams queued for reading, and the calls issued on it so far. -/
structure QUdpSocket where
  errorString : String
  pending : List QByteArray
  calls : List SocketCall
  deriving DecidableEq

/-- A signal emitted by the receiver. -/
inductive Signal where
  | socketStateChanged (s : SocketState)
  | socketStateStringChanged (text : String)
  | lastErrorChanged (text : String)
  deriving DecidableEq

end UdpReceiver

/-- The receiver object: the members of `UdpReceiver` and of its base classes that
the translation unit reads or writes, and the trace of emitted signals. -/
structure UdpReceiver where
  mAddress : String
  mPort : Int
  mSocket : UdpReceiver.QUdpSocket
  mBuffer : UdpReceiver.QBuffer
  mReconnectTimer : UdpReceiver.QTimer
  mReconnectOnDisconnect : Bool
  mSocketState : UdpReceiver.SocketState
  mSocketStateString : String
  mLastError : String
  mValid : Bool
  emitted : List UdpReceiver.Signal
  deriving DecidableEq

namespace UdpReceiver

/-- Modelled from the spec: the member defaults declared in the class headers
(udpreceiver.h and its base classes, not part of the sources at hand): the
connection state starts idle (unconnected), the reconnect flag is false, the
status and last-error texts are empty.  The rest is the constructor
`UdpReceiver::UdpReceiver`: fresh socket, buffer and single-shot timer, and the
validity flag `!mAddress.isEmpty() && mPort > 0`. -/
def new (address : String) (port : Int) : UdpReceiver :=
  { mAddress := address
    mPort := port
    mSocket := { errorString := "Unknown error", pending := [], calls := [] }
    mBuffer := { buf := [], pos := 0, isOpen := false }
    mReconnectTimer := { singleShot := true, active := false, interval := 0 }
    mReconnectOnDisconnect := false
    mSocketState := .UnconnectedState
    mSocketStateString := ""
    mLastError := ""
    mValid := !address.isEmpty && decide (port > 0)
    emitted := [] }

/-- The method `UdpReceiver::handleConnectDevice`. -/
def handleConnectDevice (r : UdpReceiver) : UdpReceiver :=
  if r.mAddress.isEmpty || r.mPort == 0 then r
  else
    { r with
      mBuffer := r.mBuffer.open
      mSocket := { r.mSocket with
        calls := r.mSocket.calls ++
          [SocketCall.bind r.mAddress (quint16 r.mPort),
           SocketCall.joinMulticastGroup r.mAddress] } }

/-- The method `UdpReceiver::handleDisconnectDevice`. -/
def handleDisconnectDevice (r : UdpReceiver) : UdpReceiver :=
  { r with
    mReconnectOnDisconnect := false
    mBuffer := r.mBuffer.close
    mSocket := { r.mSocket with calls := r.mSocket.calls ++ [SocketCall.close] } }

/-- The method `UdpReceiver::setSocketState`. -/
def setSocketState (r : UdpReceiver) (socketState : SocketState) : UdpReceiver :=
  if r.mSocketState = socketState then r
  else
    let r1 : UdpReceiver :=
      match socketState with
      | .HostLookupState | .ConnectingState =>
        { r with mSocketStateString := tr "Connecting…" }
      | .ConnectedState | .BoundState =>
        { r with mReconnectOnDisconnect := true
                 mSocketStateString := tr "Successfully connected" }
      | .UnconnectedState =>
        if r.mReconnectOnDisconnect then
          { r with
            mSocketStateString := tr "Disconnected" ++ arg1 ": " "" r.mSocket.errorString
            mReconnectTimer := r.mReconnectTimer.start 2000 }
        else
          { r with mSocketStateString := tr "Disconnected" }
      | s =>
        { r with mSocketStateString := arg1 (tr "Socket state ") "" (toString s.toInt) }
    { r1 with
      mSocketState := socketState
      emitted := r1.emitted ++
        [Signal.socketStateChanged socketState,
         Signal.socketStateStringChanged r1.mSocketStateString] }

/-- The method `UdpReceiver::handleError`. -/
def handleError (r : UdpReceiver) (error : SocketError) : UdpReceiver :=
  let msg : String :=
    match error with
    | .HostNotFoundError => tr "Could not find the remote host"
    | .NetworkError => tr "Attempt to read or write from socket returned an error"
    | .ConnectionRefusedError => tr "The connection was refused by the remote hose"
    | e => arg1 (tr "UDP receiver error (") ")" (valueToKey e)
  { r with mLastError := msg, emitted := r.emitted ++ [Signal.lastErrorChanged msg] }

/-- The call `QByteArray::resize( n )`: truncates, or pads at the end. -/
def resize (a : QByteArray) (n : Nat) : QByteArray :=
  a.take n ++ List.replicate (n - a.length) 0

/-- The call `readDatagram( data, maxSize )` on a pending datagram `payload`: at
most `maxSize` bytes of the payload are copied to the start of `data`. -/
def readDatagram (payload data : QByteArray) (maxSize : Nat) : QByteArray :=
  payload.take maxSize ++ data.drop (payload.take maxSize).length

/-- The `while ( mSocket->hasPendingDatagrams() )` loop of the `readyRead` lambda:
`datagram` is the local byte array, `pending` the queue of the socket. -/
def drainDatagrams : List QByteArray → QByteArray → QBuffer → QByteArray × QBuffer
  | [], datagram, b => (datagram, b)
  | payload :: rest, datagram, b =>
    let datagram1 := resize datagram payload.length
    let datagram2 := readDatagram payload datagram1 datagram1.length
    let b1 := b.clear
    let b2 := b1.seek 0
    let b3 := b2.write datagram2
    let b4 := b3.seek 0
    drainDatagrams rest datagram2 b4

/-- The lambda connected to `QUdpSocket::readyRead`. -/
def onReadyRead (r : UdpReceiver) : UdpReceiver :=
  { r with
    mBuffer := (drainDatagrams r.mSocket.pending [] r.mBuffer).2
    mSocket := { r.mSocket with pending := [] } }

/-- The lambda connected to `QTimer::timeout` of `mReconnectTimer`: the `int` member
`mPort` is passed to the `quint16` port parameter of `connectToHost`. -/
def onReconnectTimeout (r : UdpReceiver) : UdpReceiver :=
  { r with
    mSocket := { r.mSocket with
      calls := r.mSocket.calls ++
        [SocketCall.connectToHost r.mAddress (quint16 r.mPort)] } }

/-- What can happen to a receiver: the two public operations, and the signals of
the socket and of the timer the constructor connected. -/
inductive Event where
  | connectDevice
  | disconnectDevice
  | stateChanged (s : SocketState)
  | errorOccurred (error : SocketError) (errorString : String)
  | readyRead (datagrams : List QByteArray)
  | timeout
  deriving DecidableEq

/-- One event: the socket or timer updates its own state and the connected slot runs.
A timer that is not running does not time out. -/
def step (r : UdpReceiver) : Event → UdpReceiver
  | .connectDevice => handleConnectDevice r
  | .disconnectDevice => handleDisconnectDevice r
  | .stateChanged s => setSocketState r s
  | .errorOccurred e msg =>
    handleError { r with mSocket := { r.mSocket with errorString := msg } } e
  | .readyRead ds =>
    onReadyRead { r with mSocket := { r.mSocket with pending := r.mSocket.pending ++ ds } }
  | .timeout =>
    if r.mReconnectTimer.active then
      onReconnectTimeout { r with mReconnectTimer := r.mReconnectTimer.fired }
    else r

/-- A sequence of events, oldest first. -/
def run (r : UdpReceiver) (evs : List Event) : UdpReceiver :=
  evs.foldl step r

/-- The report of a transition into Connected or Bound. -/
def Event.isConnected : Event → Bool
  | .stateChanged .ConnectedState => true
  | .stateChanged .BoundState => true
  | _ => false

/-- The status text carries something beyond the plain "Disconnected". -/
def hasErrorContext (text : String) : Prop :=
  "Disconnected".data <+: text.data ∧ text ≠ "Disconnected"

/-- No event of the list changes the recorded socket state, that is, no transition
is accepted while the list runs. -/
def quiet (r : UdpReceiver) : List Event → Bool
  | [] => true
  | e :: es => decide ((step r e).mSocketState = r.mSocketState) && quiet (step r e) es

/-- The state is Connected or Bound. -/
def SocketState.isUp : SocketState → Bool
  | .ConnectedState => true
  | .BoundState => true
  | _ => false

/-- The history `evs` of a receiver started at `r0` contains an accepted transition
into Connected or Bound with no explicit disconnect after it. -/
def ConnectedSince (r0 : UdpReceiver) (evs : List Event) : Prop :=
  ∃ (pre : List Event) (c : SocketState) (mid : List Event),
    evs = pre ++ Event.stateChanged c :: mid ∧ c.isUp = true ∧
    (run r0 pre).mSocketState ≠ c ∧ Event.disconnectDevice ∉ mid

/-- The history `evs` of a receiver started at `r0` ends with: an accepted transition
into Connected or Bound, then no explicit disconnect, then an accepted transition to
Unconnected, and no accepted transition after that. -/
def DroppedAfterConnection (r0 : UdpReceiver) (evs : List Event) : Prop :=
  ∃ (pre : List Event) (c : SocketState) (mid post : List Event),
    evs = pre ++ Event.stateChanged c ::
      (mid ++ Event.stateChanged SocketState.UnconnectedState :: post) ∧
    c.isUp = true ∧
    (run r0 pre).mSocketState ≠ c ∧ Event.disconnectDevice ∉ mid ∧
    (run r0 (pre ++ Event.stateChanged c :: mid)).mSocketState ≠ SocketState.UnconnectedState ∧
    quiet (run r0 (pre ++ Event.stateChanged c ::
      (mid ++ [Event.stateChanged SocketState.UnconnectedState]))) post = true

instance (text : String) : Decidable (hasErrorContext text) := by
  unfold hasErrorContext
  infer_instance

/-! ## Basic facts about the Qt objects -/

theorem resize_length (a : QByteArray) (n : Nat) : (resize a n).length = n := by
  simp only [resize, List.length_append, List.length_take, List.length_replicate]
  omega

theorem readDatagram_exact (payload data : QByteArray) (h : data.length = payload.length) :
    readDatagram payload data data.length = payload := by
  unfold readDatagram
  rw [h, List.take_length, List.drop_eq_nil_of_le (le_of_eq h), List.append_nil]

/-- One pass of the loop body on an open buffer leaves exactly `data` at position 0. -/
theorem overwrite_open (b : QBuffer) (data : QByteArray) (h : b.isOpen = true) :
    ((b.clear.seek 0).write data).seek 0 = { buf := data, pos := 0, isOpen := true } := by
  simp [QBuffer.clear, QBuffer.seek, QBuffer.write, h]

/-- One pass of the loop body on a closed buffer only empties it. -/
theorem overwrite_closed (b : QBuffer) (data : QByteArray) (h : b.isOpen = false) :
    ((b.clear.seek 0).write data).seek 0 = { buf := [], pos := b.pos, isOpen := false } := by
  simp [QBuffer.clear, QBuffer.seek, QBuffer.write, h]

theorem drainDatagrams_open (ds : List QByteArray) (hne : ds ≠ []) (datagram : QByteArray)
    (b : QBuffer) (h : b.isOpen = true) :
    (drainDatagrams ds datagram b).2 = { buf := ds.getLast hne, pos := 0, isOpen := true } := by
  induction ds generalizing datagram b with
  | nil => exact absurd rfl hne
  | cons payload rest ih =>
    have hread : readDatagram payload (resize datagram payload.length)
        (resize datagram payload.length).length = payload :=
      readDatagram_exact payload _ (resize_length datagram payload.length)
    simp only [drainDatagrams, hread, overwrite_open b payload h]
    cases rest with
    | nil => simp [drainDatagrams]
    | cons d rest1 =>
      rw [ih (by simp) payload _ rfl]
      simp

/-! ## Connecting -/

/-- With an empty address or with port 0 `handleConnectDevice` returns at its guard:
the receiver, its buffer, its socket and both traces are untouched. -/
theorem handleConnectDevice_guard (r : UdpReceiver) (h : r.mAddress = "" ∨ r.mPort = 0) :
    handleConnectDevice r = r := by
  unfold handleConnectDevice
  rcases h with h | h
  · simp [h, String.isEmpty]
  · simp [h]

/-- C1 (failing input): a receiver constructed with address "224.0.0.1" and port -1 is
marked invalid by the constructor, yet `handleConnectDevice` passes its guard
(`mPort == 0`), opens the stream buffer and issues the bind (the socket receiving
port 65535) and the multicast join. -/
theorem handleConnectDevice_negative_port :
    (new "224.0.0.1" (-1)).mValid = false ∧
    (new "224.0.0.1" (-1)).mBuffer.isOpen = false ∧
    (handleConnectDevice (new "224.0.0.1" (-1))).mBuffer.isOpen = true ∧
    (handleConnectDevice (new "224.0.0.1" (-1))).mSocket.calls =
      [SocketCall.bind "224.0.0.1" 65535, SocketCall.joinMulticastGroup "224.0.0.1"] ∧
    handleConnectDevice (new "224.0.0.1" (-1)) ≠ new "224.0.0.1" (-1) := by
  decide

/-! ## Datagram arrival -/

/-- C2 (counterexample): a receiver that was bound, dropped, was explicitly
disconnected (which closes the stream buffer) and then reconnected by the retry that was
still pending is Connected with its buffer closed; the `readyRead` lambda draining the
one datagram `[36, 71]` leaves the buffer empty, not holding the datagram. -/
theorem readyRead_on_closed_buffer :
    (run (new "192.168.1.5" 10110)
      [Event.connectDevice, Event.stateChanged .BoundState, Event.stateChanged .UnconnectedState,
       Event.disconnectDevice, Event.timeout, Event.stateChanged .ConnectedState]).mSocketState
      = .ConnectedState ∧
    (run (new "192.168.1.5" 10110)
      [Event.connectDevice, Event.stateChanged .BoundState, Event.stateChanged .UnconnectedState,
       Event.disconnectDevice, Event.timeout, Event.stateChanged .ConnectedState]).mBuffer.isOpen
      = false ∧
    (run (new "192.168.1.5" 10110)
      [Event.connectDevice, Event.stateChanged .BoundState, Event.stateChanged .UnconnectedState,
       Event.disconnectDevice, Event.timeout, Event.stateChanged .ConnectedState,
       Event.readyRead [[36, 71]]]).mBuffer.buf = [] ∧
    (run (new "192.168.1.5" 10110)
      [Event.connectDevice, Event.stateChanged .BoundState, Event.stateChanged .UnconnectedState,
       Event.disconnectDevice, Event.timeout, Event.stateChanged .ConnectedState,
       Event.readyRead [[36, 71]]]).mBuffer.buf ≠ [36, 71] := by
  decide

/-- C2 (amended): when the `readyRead` lambda drains a non-empty queue of datagrams
while the stream buffer is open, then whatever the buffer held before, it afterwards
holds exactly the bytes of the last datagram, at position 0, and the queue is empty. -/
theorem readyRead_keeps_last_datagram (r : UdpReceiver) (hne : r.mSocket.pending ≠ [])
    (hopen : r.mBuffer.isOpen = true) :
    (onReadyRead r).mBuffer.buf = r.mSocket.pending.getLast hne ∧
    (onReadyRead r).mBuffer.pos = 0 ∧
    (onReadyRead r).mSocket.pending = [] := by
  simp [onReadyRead, drainDatagrams_open r.mSocket.pending hne [] r.mBuffer hopen]

theorem readyRead_keeps_last_datagram_witness :
    let r : UdpReceiver :=
      { handleConnectDevice (new "224.0.0.1" 10110) with
        mBuffer := { buf := [9, 9, 9, 9, 9], pos := 3, isOpen := true }
        mSocket := { errorString := "", pending := [[1, 2, 3], [4, 5]], calls := [] } }
    (onReadyRead r).mBuffer.buf = [4, 5] ∧ (onReadyRead r).mBuffer.pos = 0 ∧
      (onReadyRead r).mSocket.pending = [] :=
  readyRead_keeps_last_datagram _ (by decide) (by decide)

/-! ## Error classification -/

/-- The three classified messages and the formatted fallback, as the code produces
them, and the notification raised in every case. -/
theorem handleError_classification (r : UdpReceiver) (e : SocketError) :
    (handleError r e).mLastError =
      (match e with
       | .HostNotFoundError => "Could not find the remote host"
       | .NetworkError => "Attempt to read or write from socket returned an error"
       | .ConnectionRefusedError => "The connection was refused by the remote hose"
       | e => "UDP receiver error (" ++ valueToKey e ++ ")") ∧
    (handleError r e).emitted =
      r.emitted ++ [Signal.lastErrorChanged (handleError r e).mLastError] := by
  cases e <;> simp [handleError, tr, arg1]

/-- C5 (failing input): for the connection-refused code `handleError` stores, whatever
the prior state, the text ending in "remote hose", which is not the message ending in
"remote host"; the change notification carries that same text. -/
theorem handleError_connection_refused (r : UdpReceiver) :
    (handleError r .ConnectionRefusedError).mLastError =
      "The connection was refused by the remote hose" ∧
    (handleError r .ConnectionRefusedError).mLastError ≠
      "The connection was refused by the remote host" ∧
    (handleError r .ConnectionRefusedError).emitted =
      r.emitted ++ [Signal.lastErrorChanged "The connection was refused by the remote hose"] := by
  refine ⟨rfl, ?_, rfl⟩
  show "The connection was refused by the remote hose" ≠ _
  decide

/-! ## The no-op guard of `setSocketState` -/

theorem setSocketState_same (r : UdpReceiver) : setSocketState r r.mSocketState = r := by
  simp [setSocketState]

theorem setSocketState_state (r : UdpReceiver) (s : SocketState) :
    (setSocketState r s).mSocketState = s := by
  unfold setSocketState
  by_cases h : r.mSocketState = s
  · simp [h]
  · simp only [h, if_false]

/-- C7: a call of `setSocketState` with the state already recorded returns the receiver
unchanged (recorded state, status text, reconnect flag, timer, and the traces of
emitted signals and socket calls), and so applying any transition twice in a row gives
the same receiver and the same emitted signals as applying it once. -/
theorem setSocketState_idempotent (r : UdpReceiver) :
    setSocketState r r.mSocketState = r ∧
    ∀ s : SocketState, setSocketState (setSocketState r s) s = setSocketState r s := by
  refine ⟨setSocketState_same r, fun s => ?_⟩
  have h := setSocketState_same (setSocketState r s)
  rwa [setSocketState_state] at h

/-! ## Frame of the last-error message -/

/-- C10: `setSocketState` (any state), `handleConnectDevice`, `handleDisconnectDevice`,
the `readyRead` lambda and the retry lambda leave `mLastError` unchanged; `handleError`
leaves the recorded socket state, the status text, the reconnect flag and the retry
timer unchanged. -/
theorem lastError_frame (r : UdpReceiver) (s : SocketState) (e : SocketError) :
    (setSocketState r s).mLastError = r.mLastError ∧
    (handleConnectDevice r).mLastError = r.mLastError ∧
    (handleDisconnectDevice r).mLastError = r.mLastError ∧
    (onReadyRead r).mLastError = r.mLastError ∧
    (onReconnectTimeout r).mLastError = r.mLastError ∧
    (handleError r e).mSocketState = r.mSocketState ∧
    (handleError r e).mSocketStateString = r.mSocketStateString ∧
    (handleError r e).mReconnectOnDisconnect = r.mReconnectOnDisconnect ∧
    (handleError r e).mReconnectTimer = r.mReconnectTimer := by
  refine ⟨?_, ?_, rfl, rfl, rfl, rfl, rfl, rfl, rfl⟩
  · unfold setSocketState
    by_cases h : r.mSocketState = s
    · simp [h]
    · simp only [h, if_false]
      cases s
      case neg.UnconnectedState => dsimp only; split <;> rfl
      all_goals rfl
  · unfold handleConnectDevice
    split <;> rfl

/-! ## Runs -/

theorem run_append (r : UdpReceiver) (xs ys : List Event) :
    run r (xs ++ ys) = run (run r xs) ys := by
  simp [run, List.foldl_append]

theorem run_concat (r : UdpReceiver) (xs : List Event) (e : Event) :
    run r (xs ++ [e]) = step (run r xs) e := by
  simp [run, List.foldl_append]

theorem run_cons (r : UdpReceiver) (e : Event) (xs : List Event) :
    run r (e :: xs) = run (step r e) xs := rfl

/-- The members `setSocketState` never writes. -/
theorem setSocketState_frame (r : UdpReceiver) (s : SocketState) :
    (setSocketState r s).mAddress = r.mAddress ∧ (setSocketState r s).mPort = r.mPort ∧
    (setSocketState r s).mSocket = r.mSocket ∧ (setSocketState r s).mBuffer = r.mBuffer ∧
    (setSocketState r s).mReconnectTimer.singleShot = r.mReconnectTimer.singleShot := by
  by_cases h : r.mSocketState = s
  · subst h
    rw [setSocketState_same]
    simp
  · unfold setSocketState
    simp only [h, if_false]
    cases s
    case neg.UnconnectedState => dsimp only; split <;> simp [QTimer.start]
    all_goals simp

theorem handleConnectDevice_frame (r : UdpReceiver) :
    (handleConnectDevice r).mAddress = r.mAddress ∧ (handleConnectDevice r).mPort = r.mPort ∧
    (handleConnectDevice r).mReconnectTimer = r.mReconnectTimer ∧
    (handleConnectDevice r).mReconnectOnDisconnect = r.mReconnectOnDisconnect ∧
    (handleConnectDevice r).mSocketState = r.mSocketState ∧
    (handleConnectDevice r).mSocketStateString = r.mSocketStateString := by
  unfold handleConnectDevice
  split <;> simp

/-- The endpoint and the single-shot setting of the timer never change. -/
theorem step_endpoint (r : UdpReceiver) (e : Event) :
    (step r e).mAddress = r.mAddress ∧ (step r e).mPort = r.mPort ∧
    (step r e).mReconnectTimer.singleShot = r.mReconnectTimer.singleShot := by
  cases e with
  | connectDevice =>
    have h := handleConnectDevice_frame r
    simp [step, h.1, h.2.1, h.2.2.1]
  | disconnectDevice => simp [step, handleDisconnectDevice]
  | stateChanged s =>
    have h := setSocketState_frame r s
    simp [step, h.1, h.2.1, h.2.2.2.2]
  | errorOccurred err msg => simp [step, handleError]
  | readyRead ds => simp [step, onReadyRead]
  | timeout =>
    simp only [step]
    split
    · simp only [onReconnectTimeout, QTimer.fired]
      split <;> simp
    · simp

theorem run_endpoint (r : UdpReceiver) (evs : List Event) :
    (run r evs).mAddress = r.mAddress ∧ (run r evs).mPort = r.mPort ∧
    (run r evs).mReconnectTimer.singleShot = r.mReconnectTimer.singleShot := by
  induction evs generalizing r with
  | nil => simp [run]
  | cons e es ih =>
    rw [run_cons]
    have h1 := ih (step r e)
    have h2 := step_endpoint r e
    exact ⟨h1.1.trans h2.1, h1.2.1.trans h2.2.1, h1.2.2.trans h2.2.2⟩

/-! ## The reconnect flag, the status text and the timer, step by step -/

/-- An accepted transition into Connected or Bound sets the flag and the success text
and leaves the timer alone. -/
theorem setSocketState_up (r : UdpReceiver) (c : SocketState) (hc : c.isUp = true)
    (h : r.mSocketState ≠ c) :
    (setSocketState r c).mReconnectOnDisconnect = true ∧
    (setSocketState r c).mSocketStateString = "Successfully connected" ∧
    (setSocketState r c).mReconnectTimer = r.mReconnectTimer := by
  unfold setSocketState
  simp only [h, if_false]
  cases c <;> simp [SocketState.isUp, tr] at hc ⊢

/-- An accepted transition to Unconnected with the flag set: error text appended,
timer started with 2000 ms. -/
theorem setSocketState_drop (r : UdpReceiver) (h : r.mSocketState ≠ .UnconnectedState)
    (hf : r.mReconnectOnDisconnect = true) :
    (setSocketState r .UnconnectedState).mSocketStateString =
      "Disconnected: " ++ r.mSocket.errorString ∧
    (setSocketState r .UnconnectedState).mReconnectTimer = r.mReconnectTimer.start 2000 ∧
    (setSocketState r .UnconnectedState).mReconnectOnDisconnect = true := by
  unfold setSocketState
  simp only [h, if_false, hf, if_true, tr, arg1, String.append_empty, and_true]
  rw [← String.append_assoc]
  rfl

/-- An accepted transition to Unconnected with the flag clear: plain text, timer
untouched. -/
theorem setSocketState_closed (r : UdpReceiver) (h : r.mSocketState ≠ .UnconnectedState)
    (hf : r.mReconnectOnDisconnect = false) :
    (setSocketState r .UnconnectedState).mSocketStateString = "Disconnected" ∧
    (setSocketState r .UnconnectedState).mReconnectTimer = r.mReconnectTimer ∧
    (setSocketState r .UnconnectedState).mReconnectOnDisconnect = false := by
  unfold setSocketState
  simp [h, hf, tr]

/-- A transition to a state that is not Connected or Bound leaves the flag as it was. -/
theorem setSocketState_flag (r : UdpReceiver) (s : SocketState) (hs : s.isUp = false) :
    (setSocketState r s).mReconnectOnDisconnect = r.mReconnectOnDisconnect := by
  unfold setSocketState
  by_cases h : r.mSocketState = s
  · simp [h]
  · simp only [h, if_false]
    cases s
    case neg.UnconnectedState => dsimp only; split <;> rfl
    all_goals first | rfl | simp [SocketState.isUp] at hs

/-- A set flag survives every transition. -/
theorem setSocketState_flag_keep (r : UdpReceiver) (s : SocketState)
    (hf : r.mReconnectOnDisconnect = true) :
    (setSocketState r s).mReconnectOnDisconnect = true := by
  unfold setSocketState
  by_cases h : r.mSocketState = s
  · simp [h, hf]
  · simp only [h, if_false]
    cases s <;> simp [hf]

/-- With the flag clear no transition touches the timer. -/
theorem setSocketState_timer (r : UdpReceiver) (s : SocketState)
    (h : r.mReconnectOnDisconnect = false ∨ s ≠ .UnconnectedState) :
    (setSocketState r s).mReconnectTimer = r.mReconnectTimer := by
  unfold setSocketState
  by_cases hs : r.mSocketState = s
  · simp [hs]
  · simp only [hs, if_false]
    cases s
    case neg.UnconnectedState =>
      rcases h with h | h
      · simp [h]
      · exact absurd rfl h
    all_goals rfl

/-- The only accepted transition that yields a text beyond the plain "Disconnected" is
the one to Unconnected taken with the flag set. -/
theorem setSocketState_context (r : UdpReceiver) (s : SocketState) (h : r.mSocketState ≠ s)
    (hctx : hasErrorContext (setSocketState r s).mSocketStateString) :
    s = .UnconnectedState ∧ r.mReconnectOnDisconnect = true := by
  unfold setSocketState at hctx
  simp only [h, if_false] at hctx
  cases s
  case UnconnectedState =>
    refine ⟨rfl, ?_⟩
    by_contra hf
    simp only [hf] at hctx
    exact hctx.2 rfl
  all_goals
    dsimp only [tr, arg1, SocketState.toInt] at hctx
    exact absurd hctx (by decide)

/-- Only `setSocketState` writes the recorded state and the status text. -/
theorem step_status_frame (r : UdpReceiver) (e : Event) (he : ∀ s, e ≠ .stateChanged s) :
    (step r e).mSocketState = r.mSocketState ∧
    (step r e).mSocketStateString = r.mSocketStateString := by
  cases e with
  | connectDevice =>
    have h := handleConnectDevice_frame r
    exact ⟨h.2.2.2.2.1, h.2.2.2.2.2⟩
  | disconnectDevice => simp [step, handleDisconnectDevice]
  | stateChanged s => exact absurd rfl (he s)
  | errorOccurred err msg => simp [step, handleError]
  | readyRead ds => simp [step, onReadyRead]
  | timeout =>
    simp only [step]
    split <;> simp [onReconnectTimeout]

/-- A set flag is cleared by nothing but an explicit disconnect. -/
theorem step_flag_keep (r : UdpReceiver) (e : Event) (hf : r.mReconnectOnDisconnect = true)
    (he : e ≠ .disconnectDevice) : (step r e).mReconnectOnDisconnect = true := by
  cases e with
  | connectDevice =>
    have h := handleConnectDevice_frame r
    simp [step, h.2.2.2.1, hf]
  | disconnectDevice => exact absurd rfl he
  | stateChanged s => exact setSocketState_flag_keep r s hf
  | errorOccurred err msg => simp [step, handleError, hf]
  | readyRead ds => simp [step, onReadyRead, hf]
  | timeout =>
    simp only [step]
    split <;> simp [onReconnectTimeout, hf]

/-- A clear flag is set by nothing but a transition into Connected or Bound. -/
theorem step_flag_clear (r : UdpReceiver) (e : Event) (hf : r.mReconnectOnDisconnect = false)
    (he : e.isConnected = false) : (step r e).mReconnectOnDisconnect = false := by
  cases e with
  | connectDevice =>
    have h := handleConnectDevice_frame r
    simp [step, h.2.2.2.1, hf]
  | disconnectDevice => simp [step, handleDisconnectDevice]
  | stateChanged s =>
    have hs : s.isUp = false := by
      cases s <;> first | rfl | simp [Event.isConnected] at he
    simp only [step]
    rw [setSocketState_flag r s hs, hf]
  | errorOccurred err msg => simp [step, handleError, hf]
  | readyRead ds => simp [step, onReadyRead, hf]
  | timeout =>
    simp only [step]
    split <;> simp [onReconnectTimeout, hf]

/-- Where a set flag comes from. -/
theorem step_flag_origin (r : UdpReceiver) (e : Event)
    (h : (step r e).mReconnectOnDisconnect = true) :
    (r.mReconnectOnDisconnect = true ∧ e ≠ .disconnectDevice) ∨
    (∃ c : SocketState, e = .stateChanged c ∧ c.isUp = true ∧ r.mSocketState ≠ c) := by
  by_cases hf : r.mReconnectOnDisconnect = true
  · by_cases he : e = .disconnectDevice
    · subst he
      simp [step, handleDisconnectDevice] at h
    · exact Or.inl ⟨hf, he⟩
  · have hf0 : r.mReconnectOnDisconnect = false := by simpa using hf
    by_cases hc : e.isConnected = true
    · cases e with
      | stateChanged s =>
        by_cases hs : r.mSocketState = s
        · subst hs
          simp only [step, setSocketState_same] at h
          exact absurd h hf
        · refine Or.inr ⟨s, rfl, ?_, hs⟩
          cases s <;> first | rfl | simp [Event.isConnected] at hc
      | _ => simp [Event.isConnected] at hc
    · have hc0 : e.isConnected = false := by simpa using hc
      rw [step_flag_clear r e hf0 hc0] at h
      exact absurd h (by decide)

/-- Where a status text with error context comes from. -/
theorem step_context (r : UdpReceiver) (e : Event)
    (h : hasErrorContext (step r e).mSocketStateString) :
    (hasErrorContext r.mSocketStateString ∧ (step r e).mSocketState = r.mSocketState) ∨
    (e = .stateChanged .UnconnectedState ∧ r.mSocketState ≠ .UnconnectedState ∧
      r.mReconnectOnDisconnect = true) := by
  by_cases he : ∃ s, e = .stateChanged s
  · obtain ⟨s, rfl⟩ := he
    by_cases hs : r.mSocketState = s
    · subst hs
      rw [show step r (.stateChanged r.mSocketState) = r from setSocketState_same r] at h ⊢
      exact Or.inl ⟨h, rfl⟩
    · obtain ⟨h1, h2⟩ := setSocketState_context r s hs h
      subst h1
      exact Or.inr ⟨rfl, hs, h2⟩
  · have he1 : ∀ s, e ≠ .stateChanged s := fun s hs => he ⟨s, hs⟩
    have hfr := step_status_frame r e he1
    rw [hfr.2] at h
    exact Or.inl ⟨h, hfr.1⟩

/-- With the flag clear a step never starts the timer: the interval stays, and the
timer runs afterwards only if it ran before. -/
theorem step_timer_idle (r : UdpReceiver) (e : Event) (hf : r.mReconnectOnDisconnect = false) :
    (step r e).mReconnectTimer.interval = r.mReconnectTimer.interval ∧
    ((step r e).mReconnectTimer.active = true → r.mReconnectTimer.active = true) := by
  cases e with
  | connectDevice =>
    have h := handleConnectDevice_frame r
    simp [step, h.2.2.1]
  | disconnectDevice => simp [step, handleDisconnectDevice]
  | stateChanged s => simp [step, setSocketState_timer r s (Or.inl hf)]
  | errorOccurred err msg => simp [step, handleError]
  | readyRead ds => simp [step, onReadyRead]
  | timeout =>
    simp only [step]
    split
    · rename_i hact
      simp only [onReconnectTimeout, QTimer.fired]
      split <;> simp [hact]
    · simp

theorem run_flag_keep (r : UdpReceiver) (evs : List Event)
    (hf : r.mReconnectOnDisconnect = true) (he : Event.disconnectDevice ∉ evs) :
    (run r evs).mReconnectOnDisconnect = true := by
  induction evs generalizing r with
  | nil => exact hf
  | cons e es ih =>
    rw [run_cons]
    simp only [List.mem_cons, not_or] at he
    exact ih (step r e) (step_flag_keep r e hf (fun h => he.1 h.symm)) he.2

/-- While the flag is clear and no transition into Connected or Bound is reported, the
flag stays clear and the timer is never started. -/
theorem run_idle (r : UdpReceiver) (evs : List Event)
    (hf : r.mReconnectOnDisconnect = false) (he : ∀ e ∈ evs, e.isConnected = false) :
    (run r evs).mReconnectOnDisconnect = false ∧
    (run r evs).mReconnectTimer.interval = r.mReconnectTimer.interval ∧
    ((run r evs).mReconnectTimer.active = true → r.mReconnectTimer.active = true) := by
  induction evs generalizing r with
  | nil => exact ⟨hf, rfl, id⟩
  | cons e es ih =>
    rw [run_cons]
    have he1 : e.isConnected = false := he e (List.mem_cons_self e es)
    have h1 := ih (step r e) (step_flag_clear r e hf he1)
      (fun x hx => he x (List.mem_cons_of_mem e hx))
    have h2 := step_timer_idle r e hf
    exact ⟨h1.1, h1.2.1.trans h2.1, fun h => h2.2 (h1.2.2 h)⟩

theorem quiet_concat (r : UdpReceiver) (evs : List Event) (e : Event) :
    quiet r (evs ++ [e]) =
      (quiet r evs && decide ((step (run r evs) e).mSocketState = (run r evs).mSocketState)) := by
  induction evs generalizing r with
  | nil => simp [quiet, run]
  | cons x xs ih =>
    show (decide ((step r x).mSocketState = r.mSocketState) && quiet (step r x) (xs ++ [e])) = _
    rw [ih (step r x)]
    simp only [run_cons, quiet, Bool.and_assoc]

/-! ## Reconnection after a drop -/

theorem isUp_iff (c : SocketState) :
    c.isUp = true ↔ c = .ConnectedState ∨ c = .BoundState := by
  cases c <;> simp [SocketState.isUp]

/-- In the range of a `quint16` the narrowing keeps the value. -/
theorem quint16_of_inRange (v : Int) (h0 : 0 ≤ v) (h1 : v < 65536) : (quint16 v : Int) = v := by
  unfold quint16
  rw [Int.toNat_of_nonneg (Int.emod_nonneg v (by decide)), Int.emod_eq_of_lt h0 h1]

/-- C3 (counterexample): a receiver constructed with port 70000 is valid; it is bound
and drops, the retry timer runs with 2000 ms, and when it fires the call issued is
`connectToHost` with port 4464, which is not the port given to the constructor. -/
theorem retry_port_narrowed :
    (new "224.0.0.1" 70000).mValid = true ∧
    (run (new "224.0.0.1" 70000)
      [Event.connectDevice, Event.stateChanged .BoundState,
       Event.stateChanged .UnconnectedState]).mReconnectTimer
      = { singleShot := true, active := true, interval := 2000 } ∧
    (run (new "224.0.0.1" 70000)
      [Event.connectDevice, Event.stateChanged .BoundState,
       Event.stateChanged .UnconnectedState, Event.timeout]).mSocket.calls
      = [SocketCall.bind "224.0.0.1" 4464, SocketCall.joinMulticastGroup "224.0.0.1",
         SocketCall.connectToHost "224.0.0.1" 4464] ∧
    ((4464 : Nat) : Int) ≠ (run (new "224.0.0.1" 70000)
      [Event.connectDevice, Event.stateChanged .BoundState,
       Event.stateChanged .UnconnectedState, Event.timeout]).mPort := by
  decide

/-- C3 (amended): start from a freshly constructed receiver and let any events happen;
once a transition into Connected or Bound has been accepted and no explicit disconnect
has followed, an accepted transition to Unconnected leaves the (single-shot) retry
timer running with an interval of exactly 2000 ms, and when the timer then fires, the
call it issues is `connectToHost` with the address given to the constructor and the
constructor's port taken modulo 2^16, which is the constructor's port itself whenever
that lies in 0..65535. -/
theorem retry_after_drop (address : String) (port : Int) (pre mid : List Event)
    (c : SocketState) (hc : c = .ConnectedState ∨ c = .BoundState)
    (hacc : (run (new address port) pre).mSocketState ≠ c)
    (hmid : Event.disconnectDevice ∉ mid)
    (hdrop : (run (new address port) (pre ++ Event.stateChanged c :: mid)).mSocketState
      ≠ .UnconnectedState) :
    (run (new address port)
      ((pre ++ Event.stateChanged c :: mid) ++ [Event.stateChanged .UnconnectedState])).mReconnectTimer
      = { singleShot := true, active := true, interval := 2000 } ∧
    (step (run (new address port)
      ((pre ++ Event.stateChanged c :: mid) ++ [Event.stateChanged .UnconnectedState]))
      Event.timeout).mSocket.calls
      = (run (new address port)
          ((pre ++ Event.stateChanged c :: mid) ++ [Event.stateChanged .UnconnectedState])).mSocket.calls
        ++ [SocketCall.connectToHost address (quint16 port)] ∧
    (0 ≤ port → port < 65536 → (quint16 port : Int) = port) := by
  have hflag : (run (new address port) (pre ++ Event.stateChanged c :: mid)).mReconnectOnDisconnect
      = true := by
    rw [run_append, run_cons]
    exact run_flag_keep _ mid (setSocketState_up _ c ((isUp_iff c).2 hc) hacc).1 hmid
  have hend := run_endpoint (new address port) (pre ++ Event.stateChanged c :: mid)
  have hd := setSocketState_drop _ hdrop hflag
  have hend2 := run_endpoint (new address port)
    ((pre ++ Event.stateChanged c :: mid) ++ [Event.stateChanged .UnconnectedState])
  have htimer : (run (new address port)
      ((pre ++ Event.stateChanged c :: mid) ++ [Event.stateChanged .UnconnectedState])).mReconnectTimer
      = { singleShot := true, active := true, interval := 2000 } := by
    rw [run_concat]
    show (setSocketState _ _).mReconnectTimer = _
    rw [hd.2.1]
    have hs : (run (new address port) (pre ++ Event.stateChanged c :: mid)).mReconnectTimer.singleShot
        = true := hend.2.2
    simp [QTimer.start, hs]
  refine ⟨htimer, ?_, quint16_of_inRange port⟩
  simp only [step, htimer, if_true, onReconnectTimeout, hend2.1, hend2.2.1]
  rfl

theorem retry_after_drop_witness :
    (run (new "224.0.0.1" 10110)
      (([Event.connectDevice] ++ Event.stateChanged .BoundState ::
          [Event.readyRead [[36, 71]], Event.errorOccurred .NetworkError "Network unreachable"])
        ++ [Event.stateChanged .UnconnectedState])).mReconnectTimer
      = { singleShot := true, active := true, interval := 2000 } ∧
    (step (run (new "224.0.0.1" 10110)
      (([Event.connectDevice] ++ Event.stateChanged .BoundState ::
          [Event.readyRead [[36, 71]], Event.errorOccurred .NetworkError "Network unreachable"])
        ++ [Event.stateChanged .UnconnectedState]))
      Event.timeout).mSocket.calls
      = (run (new "224.0.0.1" 10110)
          (([Event.connectDevice] ++ Event.stateChanged .BoundState ::
              [Event.readyRead [[36, 71]], Event.errorOccurred .NetworkError "Network unreachable"])
            ++ [Event.stateChanged .UnconnectedState])).mSocket.calls
        ++ [SocketCall.connectToHost "224.0.0.1" (quint16 10110)] ∧
    (quint16 10110 : Int) = 10110 :=
  have h := retry_after_drop "224.0.0.1" 10110 [Event.connectDevice]
    [Event.readyRead [[36, 71]], Event.errorOccurred .NetworkError "Network unreachable"]
    .BoundState (Or.inr rfl) (by decide) (by decide) (by decide)
  ⟨h.1, h.2.1, h.2.2 (by decide) (by decide)⟩

/-! ## Explicit disconnect -/

/-- C4 (counterexample): the receiver was bound and dropped, so a retry is pending when
it is explicitly disconnected; the flag is then false, but the retry still fires, the
socket reaches Connected (the timer having stopped by firing), and the next transition
to Unconnected gives the status text "Disconnected: Network unreachable" and starts the
retry timer with 2000 ms. -/
theorem unconnected_after_disconnect_rearms :
    (run (new "224.0.0.1" 10110)
      [Event.connectDevice, Event.stateChanged .BoundState, Event.stateChanged .UnconnectedState,
       Event.disconnectDevice]).mReconnectOnDisconnect = false ∧
    (run (new "224.0.0.1" 10110)
      [Event.connectDevice, Event.stateChanged .BoundState, Event.stateChanged .UnconnectedState,
       Event.disconnectDevice, Event.timeout, Event.stateChanged .HostLookupState,
       Event.stateChanged .ConnectingState, Event.stateChanged .ConnectedState,
       Event.errorOccurred .NetworkError "Network unreachable"]).mReconnectTimer.active = false ∧
    (run (new "224.0.0.1" 10110)
      [Event.connectDevice, Event.stateChanged .BoundState, Event.stateChanged .UnconnectedState,
       Event.disconnectDevice, Event.timeout, Event.stateChanged .HostLookupState,
       Event.stateChanged .ConnectingState, Event.stateChanged .ConnectedState,
       Event.errorOccurred .NetworkError "Network unreachable",
       Event.stateChanged .UnconnectedState]).mSocketStateString
      = "Disconnected: Network unreachable" ∧
    (run (new "224.0.0.1" 10110)
      [Event.connectDevice, Event.stateChanged .BoundState, Event.stateChanged .UnconnectedState,
       Event.disconnectDevice, Event.timeout, Event.stateChanged .HostLookupState,
       Event.stateChanged .ConnectingState, Event.stateChanged .ConnectedState,
       Event.errorOccurred .NetworkError "Network unreachable",
       Event.stateChanged .UnconnectedState]).mReconnectTimer
      = { singleShot := true, active := true, interval := 2000 } := by
  decide

/-- C4 (amended): after `handleDisconnectDevice`, taken in any state, the reconnect flag
is false; and as long as no transition into Connected or Bound is reported in between,
the next accepted transition to Unconnected gives the status text exactly
"Disconnected", leaves the flag false and does not touch the retry timer, which has not
been started since the disconnect either. -/
theorem disconnect_then_unconnected (r : UdpReceiver) (mid : List Event)
    (hmid : ∀ e ∈ mid, e.isConnected = false)
    (hacc : (run (handleDisconnectDevice r) mid).mSocketState ≠ .UnconnectedState) :
    (handleDisconnectDevice r).mReconnectOnDisconnect = false ∧
    (setSocketState (run (handleDisconnectDevice r) mid) .UnconnectedState).mSocketStateString
      = "Disconnected" ∧
    (setSocketState (run (handleDisconnectDevice r) mid) .UnconnectedState).mReconnectOnDisconnect
      = false ∧
    (setSocketState (run (handleDisconnectDevice r) mid) .UnconnectedState).mReconnectTimer
      = (run (handleDisconnectDevice r) mid).mReconnectTimer ∧
    (setSocketState (run (handleDisconnectDevice r) mid) .UnconnectedState).mReconnectTimer.interval
      = r.mReconnectTimer.interval ∧
    ((setSocketState (run (handleDisconnectDevice r) mid) .UnconnectedState).mReconnectTimer.active
      = true → r.mReconnectTimer.active = true) := by
  have h0 : (handleDisconnectDevice r).mReconnectOnDisconnect = false := rfl
  have hidle := run_idle (handleDisconnectDevice r) mid h0 hmid
  have hc := setSocketState_closed _ hacc hidle.1
  refine ⟨h0, hc.1, hc.2.2, hc.2.1, ?_, ?_⟩
  · rw [hc.2.1]
    exact hidle.2.1
  · rw [hc.2.1]
    exact hidle.2.2

theorem disconnect_then_unconnected_witness :
    (handleDisconnectDevice (run (new "224.0.0.1" 10110)
      [Event.connectDevice, Event.stateChanged .BoundState])).mReconnectOnDisconnect = false ∧
    (setSocketState (run (handleDisconnectDevice (run (new "224.0.0.1" 10110)
      [Event.connectDevice, Event.stateChanged .BoundState])) [Event.stateChanged .ClosingState])
      .UnconnectedState).mSocketStateString = "Disconnected" :=
  have h := disconnect_then_unconnected
    (run (new "224.0.0.1" 10110) [Event.connectDevice, Event.stateChanged .BoundState])
    [Event.stateChanged .ClosingState] (by decide) (by decide)
  ⟨h.1, h.2.1⟩

/-! ## The text appended on a drop -/

/-- C6 (counterexample): the receiver is connected and bound, the socket reports the
network error with its own message "Network unreachable", then drops to Unconnected.
The classified last-error message is the one of the claim, but the status text is
"Disconnected: Network unreachable", not "Disconnected: " followed by that message. -/
theorem drop_status_not_classified_message :
    (run (new "224.0.0.1" 10110)
      [Event.connectDevice, Event.stateChanged .BoundState,
       Event.errorOccurred .NetworkError "Network unreachable",
       Event.stateChanged .UnconnectedState]).mLastError
      = "Attempt to read or write from socket returned an error" ∧
    (run (new "224.0.0.1" 10110)
      [Event.connectDevice, Event.stateChanged .BoundState,
       Event.errorOccurred .NetworkError "Network unreachable",
       Event.stateChanged .UnconnectedState]).mSocketStateString
      = "Disconnected: Network unreachable" ∧
    (run (new "224.0.0.1" 10110)
      [Event.connectDevice, Event.stateChanged .BoundState,
       Event.errorOccurred .NetworkError "Network unreachable",
       Event.stateChanged .UnconnectedState]).mSocketStateString
      ≠ "Disconnected: Attempt to read or write from socket returned an error" := by
  decide

/-- C6 (amended): after an accepted transition into Connected or Bound, when the socket
reports the network error (its own error text being `msg`) and then a transition to
Unconnected, the classified last-error message is "Attempt to read or write from
socket returned an error", the status text is "Disconnected: " followed by the
socket's own error text `msg`, and the retry timer runs with an interval of 2000 ms. -/
theorem drop_status_uses_socket_errorString (r : UdpReceiver) (c : SocketState) (msg : String)
    (hc : c = .ConnectedState ∨ c = .BoundState) (hacc : r.mSocketState ≠ c) :
    (run r [Event.stateChanged c, Event.errorOccurred .NetworkError msg]).mLastError
      = "Attempt to read or write from socket returned an error" ∧
    (run r [Event.stateChanged c, Event.errorOccurred .NetworkError msg,
        Event.stateChanged .UnconnectedState]).mSocketStateString
      = "Disconnected: " ++ msg ∧
    (run r [Event.stateChanged c, Event.errorOccurred .NetworkError msg,
        Event.stateChanged .UnconnectedState]).mReconnectTimer.active = true ∧
    (run r [Event.stateChanged c, Event.errorOccurred .NetworkError msg,
        Event.stateChanged .UnconnectedState]).mReconnectTimer.interval = 2000 := by
  have hup := setSocketState_up r c ((isUp_iff c).2 hc) hacc
  have hst := setSocketState_state r c
  have hne : (step (step r (Event.stateChanged c)) (Event.errorOccurred .NetworkError msg)).mSocketState
      ≠ .UnconnectedState := by
    show (setSocketState r c).mSocketState ≠ .UnconnectedState
    rw [hst]
    rcases hc with rfl | rfl <;> decide
  have hfl : (step (step r (Event.stateChanged c))
      (Event.errorOccurred .NetworkError msg)).mReconnectOnDisconnect = true := hup.1
  have hd := setSocketState_drop _ hne hfl
  refine ⟨rfl, ?_, ?_, ?_⟩
  · show (setSocketState _ _).mSocketStateString = _
    rw [hd.1]
    rfl
  · show (setSocketState _ _).mReconnectTimer.active = true
    rw [hd.2.1]
    rfl
  · show (setSocketState _ _).mReconnectTimer.interval = 2000
    rw [hd.2.1]
    rfl

theorem drop_status_uses_socket_errorString_witness :
    (run (new "224.0.0.1" 10110)
      [Event.stateChanged .BoundState, Event.errorOccurred .NetworkError "Network unreachable",
        Event.stateChanged .UnconnectedState]).mSocketStateString
      = "Disconnected: " ++ "Network unreachable" :=
  (drop_status_uses_socket_errorString (new "224.0.0.1" 10110) .BoundState
    "Network unreachable" (Or.inr rfl) (by decide)).2.1

/-! ## The retry timer is never stopped -/

/-- C8 (counterexample): the receiver was bound and dropped, so its retry timer runs.
After `handleDisconnectDevice` the timer still runs, and when it fires `connectToHost`
is issued after the `close`; after an accepted transition into Bound the timer still
runs as well, and fires the same call. -/
theorem pending_retry_survives :
    (run (new "224.0.0.1" 10110)
      [Event.connectDevice, Event.stateChanged .BoundState,
       Event.stateChanged .UnconnectedState]).mReconnectTimer.active = true ∧
    (handleDisconnectDevice (run (new "224.0.0.1" 10110)
      [Event.connectDevice, Event.stateChanged .BoundState,
       Event.stateChanged .UnconnectedState])).mReconnectTimer.active = true ∧
    (run (new "224.0.0.1" 10110)
      [Event.connectDevice, Event.stateChanged .BoundState, Event.stateChanged .UnconnectedState,
       Event.disconnectDevice, Event.timeout]).mSocket.calls
      = [SocketCall.bind "224.0.0.1" 10110, SocketCall.joinMulticastGroup "224.0.0.1",
         SocketCall.close, SocketCall.connectToHost "224.0.0.1" 10110] ∧
    (run (new "224.0.0.1" 10110)
      [Event.connectDevice, Event.stateChanged .BoundState, Event.stateChanged .UnconnectedState,
       Event.connectDevice, Event.stateChanged .BoundState]).mReconnectTimer.active = true ∧
    (run (new "224.0.0.1" 10110)
      [Event.connectDevice, Event.stateChanged .BoundState, Event.stateChanged .UnconnectedState,
       Event.connectDevice, Event.stateChanged .BoundState, Event.timeout]).mSocket.calls
      = [SocketCall.bind "224.0.0.1" 10110, SocketCall.joinMulticastGroup "224.0.0.1",
         SocketCall.bind "224.0.0.1" 10110, SocketCall.joinMulticastGroup "224.0.0.1",
         SocketCall.connectToHost "224.0.0.1" 10110] := by
  decide

/-- C8 (amended): in every state in which the retry timer runs, neither
`handleDisconnectDevice` nor a transition into Connected or Bound cancels the pending
retry: both leave the timer exactly as it was, and when it fires afterwards it issues
`connectToHost` with the address and the port (as the `quint16` the socket receives)
of the receiver. -/
theorem pending_retry_not_cancelled (r : UdpReceiver) (c : SocketState)
    (harmed : r.mReconnectTimer.active = true)
    (hc : c = .ConnectedState ∨ c = .BoundState) :
    (handleDisconnectDevice r).mReconnectTimer = r.mReconnectTimer ∧
    (setSocketState r c).mReconnectTimer = r.mReconnectTimer ∧
    (step (handleDisconnectDevice r) Event.timeout).mSocket.calls
      = r.mSocket.calls ++
        [SocketCall.close, SocketCall.connectToHost r.mAddress (quint16 r.mPort)] ∧
    (step (setSocketState r c) Event.timeout).mSocket.calls
      = r.mSocket.calls ++ [SocketCall.connectToHost r.mAddress (quint16 r.mPort)] := by
  have hne : c ≠ .UnconnectedState := by rcases hc with rfl | rfl <;> decide
  have ht := setSocketState_timer r c (Or.inr hne)
  have hfr := setSocketState_frame r c
  refine ⟨rfl, ht, ?_, ?_⟩
  · simp [step, handleDisconnectDevice, harmed, onReconnectTimeout]
  · simp only [step, ht, harmed, if_true, onReconnectTimeout, hfr.1, hfr.2.1, hfr.2.2.1]

theorem pending_retry_not_cancelled_witness :
    (handleDisconnectDevice (run (new "224.0.0.1" 10110)
      [Event.connectDevice, Event.stateChanged .BoundState,
       Event.stateChanged .UnconnectedState])).mReconnectTimer
      = (run (new "224.0.0.1" 10110)
      [Event.connectDevice, Event.stateChanged .BoundState,
       Event.stateChanged .UnconnectedState]).mReconnectTimer :=
  (pending_retry_not_cancelled
    (run (new "224.0.0.1" 10110)
      [Event.connectDevice, Event.stateChanged .BoundState,
       Event.stateChanged .UnconnectedState])
    .BoundState (by decide) (Or.inr rfl)).1

/-! ## Where error context in the status text comes from -/

/-- A set flag has its history: an accepted transition into Connected or Bound with no
explicit disconnect after it. -/
theorem flag_history (r0 : UdpReceiver) (h0 : r0.mReconnectOnDisconnect = false)
    (evs : List Event) (h : (run r0 evs).mReconnectOnDisconnect = true) :
    ConnectedSince r0 evs := by
  induction evs using List.reverseRecOn with
  | nil =>
    rw [show run r0 [] = r0 from rfl, h0] at h
    exact absurd h (by decide)
  | append_singleton xs e ih =>
    rw [run_concat] at h
    rcases step_flag_origin _ e h with ⟨hf, he⟩ | ⟨c, rfl, hc, hacc⟩
    · obtain ⟨pre, c, mid, rfl, hc, hacc, hmid⟩ := ih hf
      refine ⟨pre, c, mid ++ [e], by simp, hc, hacc, ?_⟩
      simp only [List.mem_append, List.mem_singleton, not_or]
      exact ⟨hmid, fun h1 => he h1.symm⟩
    · exact ⟨xs, c, [], rfl, hc, hacc, by simp⟩

/-- A status text with error context has its history. -/
theorem context_history (r0 : UdpReceiver) (h0 : r0.mReconnectOnDisconnect = false)
    (hctx0 : ¬ hasErrorContext r0.mSocketStateString)
    (evs : List Event) (h : hasErrorContext (run r0 evs).mSocketStateString) :
    DroppedAfterConnection r0 evs := by
  induction evs using List.reverseRecOn with
  | nil => exact absurd h hctx0
  | append_singleton xs e ih =>
    rw [run_concat] at h
    rcases step_context _ e h with ⟨hc, hst⟩ | ⟨rfl, hacc, hf⟩
    · obtain ⟨pre, c, mid, post, rfl, hup, hacc, hmid, hdrop, hq⟩ := ih hc
      refine ⟨pre, c, mid, post ++ [e], by simp, hup, hacc, hmid, hdrop, ?_⟩
      have hrun : run (run r0 (pre ++ Event.stateChanged c ::
            (mid ++ [Event.stateChanged SocketState.UnconnectedState]))) post
          = run r0 (pre ++ Event.stateChanged c ::
            (mid ++ Event.stateChanged SocketState.UnconnectedState :: post)) := by
        rw [← run_append]
        simp
      rw [quiet_concat, hq, hrun]
      simpa using hst
    · obtain ⟨pre, c, mid, rfl, hup, hacc0, hmid⟩ := flag_history r0 h0 xs hf
      exact ⟨pre, c, mid, [], by simp, hup, hacc0, hmid, hacc, rfl⟩

/-- A status with error context is reachable: bind, error, drop. -/
theorem error_context_reachable :
    hasErrorContext (run (new "224.0.0.1" 10110)
      [Event.connectDevice, Event.stateChanged .BoundState,
       Event.errorOccurred .NetworkError "Network unreachable",
       Event.stateChanged .UnconnectedState]).mSocketStateString := by
  decide

/-- C9: for every sequence of events applied to a freshly constructed receiver, if the
status text carries anything beyond the plain "Disconnected", then the history ends
with an accepted transition into Connected or Bound, no explicit disconnect after it, an
accepted transition to Unconnected, and no accepted transition since; and if no
transition into Connected or Bound was ever reported, the status text carries no error
context and the retry timer is not running. -/
theorem error_context_needs_connection (address : String) (port : Int) (evs : List Event) :
    (hasErrorContext (run (new address port) evs).mSocketStateString →
      DroppedAfterConnection (new address port) evs) ∧
    ((∀ e ∈ evs, e.isConnected = false) →
      ¬ hasErrorContext (run (new address port) evs).mSocketStateString ∧
      (run (new address port) evs).mReconnectTimer.active = false) := by
  have hnew : ¬ hasErrorContext (new address port).mSocketStateString := by
    show ¬ hasErrorContext ""
    decide
  have hhist := context_history (new address port) rfl hnew evs
  refine ⟨hhist, fun hno => ⟨fun hctx => ?_, ?_⟩⟩
  · obtain ⟨pre, c, mid, post, rfl, hup, _⟩ := hhist hctx
    have hmem := hno (Event.stateChanged c) (by simp)
    cases c <;> simp [Event.isConnected, SocketState.isUp] at hmem hup
  · have hidle := run_idle (new address port) evs rfl hno
    cases hact : (run (new address port) evs).mReconnectTimer.active
    · rfl
    · have h1 : (new address port).mReconnectTimer.active = true := hidle.2.2 hact
      exact absurd h1 (fun h2 => Bool.noConfusion h2)

end UdpReceiver
